import Mathlib

/-!
Verification of the `sheets` column library (src/sheets/columns.py).

The file shallowly embeds the parts of the source the claims refer to:
the shared `Column` base (validator chain, construction counter, schema
attachment), `UnicodeColumn`, `BooleanColumn`, `DateTimeColumn` and
`DateColumn`.  Python 2 exceptions are modelled by `Except PyErr`;
Python dicts by association lists or lookup functions; the unordered
Python `set` of date formats by a list carrying an arbitrary enumeration
of the set, constrained by `validEnum`.
-/

/-- Python exceptions raised by the embedded code.  `ValueError` carries its
message where a claim inspects it; the `BooleanColumn` message also
interpolates the repr of the bool map, whose dict ordering is unspecified in
Python 2, so that error is modelled structurally as `boolValueError` carrying
the offending raw value. -/
inductive PyErr where
  | valueError (msg : String)
  | boolValueError (value : String)
  | keyError
  | unicodeDecodeError
deriving DecidableEq, Repr

deriving instance DecidableEq for Except

/-- A `datetime.datetime` value restricted to the fields the library touches.
`tz` models the `tzinfo` attached by `pytz`'s `localize`: `none` is a naive
datetime, `some z` is a datetime localized into the timezone tagged `z`
(`localize` attaches the tzinfo and keeps the wall-clock fields). -/
structure DateTime where
  year : Nat
  month : Nat
  day : Nat
  hour : Nat
  minute : Nat
  second : Nat
  tz : Option Nat
deriving DecidableEq, Repr

/-- A `datetime.date` value. -/
structure Date where
  year : Nat
  month : Nat
  day : Nat
deriving DecidableEq, Repr

def isLeapYear (y : Nat) : Bool :=
  (y % 4 == 0 && y % 100 != 0) || y % 400 == 0

def daysInMonth (y m : Nat) : Nat :=
  if m = 2 then (if isLeapYear y then 29 else 28)
  else if m = 4 ∨ m = 6 ∨ m = 9 ∨ m = 11 then 30
  else 31

/-- The `datetime.datetime` constructor validity check (MINYEAR = 1,
MAXYEAR = 9999, month and day ranges per calendar). -/
def validYMD (y m d : Nat) : Bool :=
  1 ≤ y && y ≤ 9999 && 1 ≤ m && m ≤ 12 && 1 ≤ d && d ≤ daysInMonth y m

/-- Tokens of a strptime-style format string, restricted to the directives the
repository uses: `%Y %m %d %H %M %S`, `%%`, literal characters and whitespace
runs (CPython's `_strptime` collapses a whitespace run in the format to the
regex `\s+`). -/
inductive FmtTok where
  | lit (c : Char)
  | ws
  | dY
  | dm
  | dd
  | dH
  | dM
  | dS
deriving DecidableEq, Repr

/-- Directive table, the subset of CPython `_strptime.TimeRE` this repository
exercises.  A directive outside the subset makes the whole format unusable
here (CPython raises `ValueError` for an unknown directive; for the known but
unmodelled ones no theorem below mentions them), which the embedding renders
as `none`, i.e. a format that never matches. -/
def directiveTok : Char → Option FmtTok
  | 'Y' => some FmtTok.dY
  | 'm' => some FmtTok.dm
  | 'd' => some FmtTok.dd
  | 'H' => some FmtTok.dH
  | 'M' => some FmtTok.dM
  | 'S' => some FmtTok.dS
  | '%' => some (FmtTok.lit '%')
  | _ => none

def isPySpace (c : Char) : Bool :=
  c = ' ' || c = '\t' || c = '\n' || c = '\r' || c = '\x0b' || c = '\x0c'

/-- Tokenize a format string.  Consecutive whitespace characters collapse into
a single `ws` token, mirroring the `\s+` substitution in `_strptime`. -/
def tokenizeFmt : List Char → Option (List FmtTok)
  | [] => some []
  | '%' :: [] => none
  | '%' :: c :: rest =>
    match directiveTok c with
    | some t => (tokenizeFmt rest).map (fun ts => t :: ts)
    | none => none
  | c :: rest =>
    if isPySpace c then
      match tokenizeFmt rest with
      | some (FmtTok.ws :: ts) => some (FmtTok.ws :: ts)
      | some ts => some (FmtTok.ws :: ts)
      | none => none
    else
      (tokenizeFmt rest).map (fun ts => FmtTok.lit c :: ts)

def digitVal (c : Char) : Nat := c.toNat - 48

/-- Candidate matches of `%Y`, regex `\d\d\d\d`: each candidate is the parsed
value with the remaining input. -/
def candY : List Char → List (Nat × List Char)
  | a :: b :: c :: d :: rest =>
    if a.isDigit && b.isDigit && c.isDigit && d.isDigit then
      [(((digitVal a * 10 + digitVal b) * 10 + digitVal c) * 10 + digitVal d, rest)]
    else []
  | _ => []

/-- Candidate matches of `%m`, regex `1[0-2]|0[1-9]|[1-9]`, listed in the
alternation order of the regex. -/
def candm (cs : List Char) : List (Nat × List Char) :=
  (match cs with
    | '1' :: b :: rest => if '0' ≤ b && b ≤ '2' then [(10 + digitVal b, rest)] else []
    | _ => [])
  ++ (match cs with
    | '0' :: b :: rest => if '1' ≤ b && b ≤ '9' then [(digitVal b, rest)] else []
    | _ => [])
  ++ (match cs with
    | a :: rest => if '1' ≤ a && a ≤ '9' then [(digitVal a, rest)] else []
    | _ => [])

/-- Candidate matches of `%d`, regex `3[01]|[12]\d|0[1-9]|[1-9]`. -/
def candd (cs : List Char) : List (Nat × List Char) :=
  (match cs with
    | '3' :: b :: rest => if b = '0' || b = '1' then [(30 + digitVal b, rest)] else []
    | _ => [])
  ++ (match cs with
    | a :: b :: rest =>
      if (a = '1' || a = '2') && b.isDigit then [(digitVal a * 10 + digitVal b, rest)] else []
    | _ => [])
  ++ (match cs with
    | '0' :: b :: rest => if '1' ≤ b && b ≤ '9' then [(digitVal b, rest)] else []
    | _ => [])
  ++ (match cs with
    | a :: rest => if '1' ≤ a && a ≤ '9' then [(digitVal a, rest)] else []
    | _ => [])

/-- Candidate matches of `%H`, regex `2[0-3]|[0-1]\d|\d`. -/
def candH (cs : List Char) : List (Nat × List Char) :=
  (match cs with
    | '2' :: b :: rest => if '0' ≤ b && b ≤ '3' then [(20 + digitVal b, rest)] else []
    | _ => [])
  ++ (match cs with
    | a :: b :: rest =>
      if (a = '0' || a = '1') && b.isDigit then [(digitVal a * 10 + digitVal b, rest)] else []
    | _ => [])
  ++ (match cs with
    | a :: rest => if a.isDigit then [(digitVal a, rest)] else []
    | _ => [])

/-- Candidate matches of `%M`, regex `[0-5]\d|\d`. -/
def candMin (cs : List Char) : List (Nat × List Char) :=
  (match cs with
    | a :: b :: rest =>
      if ('0' ≤ a && a ≤ '5') && b.isDigit then [(digitVal a * 10 + digitVal b, rest)] else []
    | _ => [])
  ++ (match cs with
    | a :: rest => if a.isDigit then [(digitVal a, rest)] else []
    | _ => [])

/-- Candidate matches of `%S`, regex `6[0-1]|[0-5]\d|\d`. -/
def candS (cs : List Char) : List (Nat × List Char) :=
  (match cs with
    | '6' :: b :: rest => if b = '0' || b = '1' then [(60 + digitVal b, rest)] else []
    | _ => [])
  ++ (match cs with
    | a :: b :: rest =>
      if ('0' ≤ a && a ≤ '5') && b.isDigit then [(digitVal a * 10 + digitVal b, rest)] else []
    | _ => [])
  ++ (match cs with
    | a :: rest => if a.isDigit then [(digitVal a, rest)] else []
    | _ => [])

def candidatesFor : FmtTok → List Char → List (Nat × List Char)
  | FmtTok.dY, cs => candY cs
  | FmtTok.dm, cs => candm cs
  | FmtTok.dd, cs => candd cs
  | FmtTok.dH, cs => candH cs
  | FmtTok.dM, cs => candMin cs
  | FmtTok.dS, cs => candS cs
  | FmtTok.lit _, _ => []
  | FmtTok.ws, _ => []

/-- Ways `\s+` can match a prefix of the input, greediest first (regex `+` is
greedy and backtracks one character at a time). -/
def candWs (cs : List Char) : List (List Char) :=
  let n := (cs.takeWhile isPySpace).length
  (List.range n).map (fun i => cs.drop (n - i))

/-- The named groups captured by the format regex. -/
structure StrpFields where
  y : Option Nat
  m : Option Nat
  d : Option Nat
  H : Option Nat
  M : Option Nat
  S : Option Nat
deriving DecidableEq, Repr

def setField (t : FmtTok) (v : Nat) (f : StrpFields) : StrpFields :=
  match t with
  | FmtTok.dY => { f with y := some v }
  | FmtTok.dm => { f with m := some v }
  | FmtTok.dd => { f with d := some v }
  | FmtTok.dH => { f with H := some v }
  | FmtTok.dM => { f with M := some v }
  | FmtTok.dS => { f with S := some v }
  | _ => f

/-- Backtracking regex match of the tokenized format against the input,
following the alternation order of `_strptime`'s per-directive regexes.
Returns the captured fields and the unconsumed input (the regex is anchored at
the start only; the end-of-input check happens in `strptime`). -/
def matchToks : List FmtTok → List Char → Option (StrpFields × List Char)
  | [], cs => some (⟨none, none, none, none, none, none⟩, cs)
  | FmtTok.lit c :: toks, cs =>
    match cs with
    | c2 :: rest => if c2 = c then matchToks toks rest else none
    | [] => none
  | FmtTok.ws :: toks, cs => (candWs cs).findSome? (fun rest => matchToks toks rest)
  | tok :: toks, cs =>
    (candidatesFor tok cs).findSome? (fun vr =>
      (matchToks toks vr.2).map (fun fr => (setField tok vr.1 fr.1, fr.2)))

/-- `datetime.datetime.strptime(data_string, fmt)` over the supported
directive subset.  `none` stands for the `ValueError` strptime raises: the
regex does not match, unconverted data remains, or the extracted fields are
rejected by the `datetime` constructor (missing fields default to
1900-01-01 00:00:00). -/
def strptime (data_string fmt : String) : Option DateTime :=
  match tokenizeFmt fmt.data with
  | none => none
  | some toks =>
    match matchToks toks data_string.data with
    | some (f, []) =>
      let y := f.y.getD 1900
      let m := f.m.getD 1
      let d := f.d.getD 1
      let hh := f.H.getD 0
      let mm := f.M.getD 0
      let ss := f.S.getD 0
      if validYMD y m d && hh ≤ 23 && mm ≤ 59 && ss ≤ 59 then
        some ⟨y, m, d, hh, mm, ss, none⟩
      else none
    | _ => none

example : strptime "2010-03-31" "%Y-%m-%d" = some ⟨2010, 3, 31, 0, 0, 0, none⟩ := by decide
example : strptime "03/31/2010 11:43:12" "%m/%d/%Y %H:%M:%S"
    = some ⟨2010, 3, 31, 11, 43, 12, none⟩ := by decide
example : strptime "03-31-2010" "%Y-%m-%d" = none := by decide
example : strptime "invalid" "%Y-%m-%d" = none := by decide
example : strptime "2010-02-30" "%Y-%m-%d" = none := by decide
example : strptime "03/04/2010" "%d/%m/%Y" = some ⟨2010, 4, 3, 0, 0, 0, none⟩ := by decide
example : strptime "03/04/2010" "%m/%d/%Y" = some ⟨2010, 3, 4, 0, 0, 0, none⟩ := by decide

/-- Models `if self.timezone is not None: dt = self.timezone.localize(dt)`:
`pytz`'s `localize` attaches the timezone to a naive datetime without changing
its wall-clock fields. -/
def localizeOpt (tz : Option Nat) (dt : DateTime) : DateTime :=
  match tz with
  | some z => { dt with tz := some z }
  | none => dt

/-- `DateTimeColumn.__init__` stores
`self.input_formats = set([format] + (format_list or []))`.  A Python set has
no specified iteration order, so the embedding keeps `input_formats` as the
arbitrary enumeration the runtime happens to produce; `validEnum` below says
which lists are legitimate enumerations of that set. -/
structure DateTimeColumn where
  format : String
  input_formats : List String
  timezone : Option Nat

/-- `enum` is a possible iteration order of the Python set
`set([format] + format_list)`: a permutation of the distinct elements of
`format :: format_list`. -/
def validEnum (format : String) (format_list : List String) (enum : List String) : Prop :=
  List.Perm enum ((format :: format_list).dedup)

instance (f : String) (fl enum : List String) : Decidable (validEnum f fl enum) :=
  inferInstanceAs (Decidable (List.Perm enum ((f :: fl).dedup)))

def pyReprStr (s : String) : String := "'" ++ s ++ "'"

def joinCommaSep : List String → String
  | [] => ""
  | [s] => s
  | s :: rest => s ++ ", " ++ joinCommaSep rest

/-- The message of the `ValueError` raised when no format matches:
`"time data %s does not match any of the formats: %s" % (value,
", ".join(map(repr, self.input_formats)))`. -/
def noMatchMsg (value : String) (formats : List String) : String :=
  "time data " ++ value ++ " does not match any of the formats: "
    ++ joinCommaSep (formats.map pyReprStr)

/-- The `for format in self.input_formats` loop of
`DateTimeColumn.to_python`: first strptime success wins (its `ValueError` is
caught and the loop continues), and exhaustion raises the enumerating
`ValueError`. -/
def strLoop (col : DateTimeColumn) (s : String) : List String → Except PyErr DateTime
  | [] => Except.error (PyErr.valueError (noMatchMsg s col.input_formats))
  | f :: rest =>
    match strptime s f with
    | some dt => Except.ok (localizeOpt col.timezone dt)
    | none => strLoop col s rest

/-- The runtime-typed argument of `DateTimeColumn.to_python`: the code
distinguishes `datetime.datetime`, `datetime.date` and string inputs with
`isinstance` checks (`datetime` is checked first, as in the source, which
matters because `datetime` is a subclass of `date`). -/
inductive DTInput where
  | dt (d : DateTime)
  | date (d : Date)
  | str (s : String)

def DateTimeColumn.to_python (col : DateTimeColumn) : DTInput → Except PyErr DateTime
  | DTInput.dt d => Except.ok d
  | DTInput.date d =>
    Except.ok { year := d.year, month := d.month, day := d.day,
                hour := 0, minute := 0, second := 0, tz := none }
  | DTInput.str s => strLoop col s col.input_formats

def DateTime.toDate (d : DateTime) : Date := ⟨d.year, d.month, d.day⟩

/-- `DateColumn.to_python` calls the `DateTimeColumn` parse and truncates with
`.date()`. -/
def DateColumn.to_python (col : DateTimeColumn) (v : DTInput) : Except PyErr Date :=
  (DateTimeColumn.to_python col v).map DateTime.toDate

example :
    DateTimeColumn.to_python ⟨"%Y-%m-%d", ["%Y-%m-%d"], none⟩ (DTInput.str "2010-03-31")
      = Except.ok ⟨2010, 3, 31, 0, 0, 0, none⟩ := by decide
example :
    DateTimeColumn.to_python ⟨"%Y-%m-%d", ["%Y-%m-%d"], none⟩ (DTInput.str "bad")
      = Except.error (PyErr.valueError
          "time data bad does not match any of the formats: '%Y-%m-%d'") := by decide
example : validEnum "%d/%m/%Y" ["%m/%d/%Y"] ["%m/%d/%Y", "%d/%m/%Y"] := by decide

/-- The state of a `Column` instance, generic over the Python value type `α`
its validators handle.  A chain element is a callable that either returns a
value (discarded by `validate`) or raises; `counter` is the `order_index`
drawn from the class-wide `itertools.count`; `name` is set by
`attach_to_class`. -/
structure ColumnState (α : Type) where
  title : Option String
  required : Bool
  validators : List (α → Except PyErr α)
  counter : Nat
  name : Option String

/-- `Column.__init__(self, title=None, required=True)`: seeds the validator
list with the bound `self.to_python` (passed in here, since Python dispatches
it dynamically to the subclass) and draws `self.counter` from the shared
`itertools.count`, modelled as explicit counter state `c` threaded through. -/
def Column.init {α : Type} (to_python : α → Except PyErr α) (title : Option String)
    (required : Bool) (c : Nat) : ColumnState α × Nat :=
  ({ title := title, required := required, validators := [to_python],
     counter := c, name := none }, c + 1)

/-- The loop body of `Column.validate`: call each validator on `value` in
order, discarding results; the first exception propagates. -/
def runValidators {α : Type} : List (α → Except PyErr α) → α → Except PyErr Unit
  | [], _ => Except.ok ()
  | f :: rest, value =>
    match f value with
    | Except.error e => Except.error e
    | Except.ok _ => runValidators rest value

/-- `Column.validate(self, value)`. -/
def Column.validate {α : Type} (col : ColumnState α) (value : α) : Except PyErr Unit :=
  runValidators col.validators value

/-- `Column.validator(self, func)`: appends `functools.partial(func, self)`
(here `func col`, binding the current column state) to the chain and returns
`func` unchanged.  The result pairs the returned function with the updated
column. -/
def Column.validator {α : Type} (col : ColumnState α)
    (func : ColumnState α → α → Except PyErr α) :
    (ColumnState α → α → Except PyErr α) × ColumnState α :=
  (func, { col with validators := col.validators ++ [func col] })

/-- Register a list of custom validators one after the other. -/
def registerAll {α : Type} (col : ColumnState α) :
    List (ColumnState α → α → Except PyErr α) → ColumnState α
  | [] => col
  | f :: fs => registerAll (Column.validator col f).2 fs

/-- The chain entries produced by registering `funcs` in order starting from
`col`: the i-th registered function, partially applied to the column state at
its registration. -/
def boundChain {α : Type} (col : ColumnState α) :
    List (ColumnState α → α → Except PyErr α) → List (α → Except PyErr α)
  | [] => []
  | f :: fs => f col :: boundChain (Column.validator col f).2 fs

/-- Python 2 `name.replace("_", " ")` as called in `attach_to_class`:
`str.replace` with a single-character pattern and replacement substitutes
every occurrence of that character. -/
def pyReplaceChar (s : String) (pat rep : Char) : String :=
  ⟨s.data.map (fun c => if c = pat then rep else c)⟩

/-- `Column.attach_to_class(self, cls, name, dialect)` restricted to the state
it mutates on the column itself (`cls` and `dialect` are back-references to
external collaborators; `dialect.add_column` is outside the core): stores the
field name and derives the default title only when `self.title is None`. -/
def Column.attach_to_class {α : Type} (col : ColumnState α) (name : String) :
    ColumnState α :=
  let col1 := { col with name := some name }
  if col1.title = none then { col1 with title := some (pyReplaceChar name '_' ' ') } else col1

/-- Construct a sequence of columns (each given by its `to_python`, `title`
and `required` arguments), threading the shared construction counter. -/
def initSeq {α : Type} :
    List ((α → Except PyErr α) × Option String × Bool) → Nat →
    List (ColumnState α) × Nat
  | [], c => ([], c)
  | (tp, t, r) :: rest, c =>
    let p := Column.init tp t r c
    let q := initSeq rest p.2
    (p.1 :: q.1, q.2)

/-- Lookup in a Python dict with string keys, the dict given by its (unique
keyed) entries. -/
def lookupKey (m : List (String × Bool)) (k : String) : Option Bool :=
  (m.find? (fun p => p.1 == k)).map (fun p => p.2)

/-- A Python dict with `bool` keys, as its lookup function.  `dictOfPairs`
builds it from written entries with the later-binding-wins semantics of dict
construction. -/
def dictOfPairs (l : List (Bool × String)) : Bool → Option String :=
  fun b => (l.reverse.find? (fun p => p.1 == b)).map (fun p => p.2)

/-- The inversion `{value: key for key, value in self._bool_map.iteritems()}`.
Iteration order of the dict is unspecified, but the comprehension keeps, for
each bool, the key of the last pair enumerated with that value, so over the
entry list `m` it is last-write-wins on values. -/
def invertBoolMap (m : List (String × Bool)) : Bool → Option String :=
  fun b => (m.reverse.find? (fun p => p.2 == b)).map (fun p => p.1)

def defaultBoolMap : List (String × Bool) := [("true", true), ("false", false)]

/-- The `_bool_map` and `_inverted_bool_map` state set up by
`BooleanColumn.__init__` (the `Column` base state is modelled separately by
`ColumnState`). -/
structure BooleanColumn where
  bool_map : List (String × Bool)
  inverted_bool_map : Bool → Option String

/-- `BooleanColumn.__init__(self, bool_map=None, inverted_bool_map=None)`:
defaults `bool_map` to `_default_bool_map` and `inverted_bool_map` to the
inversion of the chosen `bool_map`. -/
def mkBooleanColumn (bool_map : Option (List (String × Bool)))
    (inverted_bool_map : Option (List (Bool × String))) : BooleanColumn :=
  let bm := match bool_map with
    | none => defaultBoolMap
    | some m => m
  { bool_map := bm
    inverted_bool_map := match inverted_bool_map with
      | none => invertBoolMap bm
      | some l => dictOfPairs l }

/-- Python 2 `str.lower()`: ASCII-only lower-casing, character by
character. -/
def pyStrLower (s : String) : String := ⟨s.data.map Char.toLower⟩

/-- `BooleanColumn.to_python`: lower-case `str(value)` and look it up;
an unmapped token raises
`ValueError("cannot map %r to boolean with map %s" ...)`. -/
def BooleanColumn.to_python (col : BooleanColumn) (value : String) : Except PyErr Bool :=
  let str_value := pyStrLower value
  match lookupKey col.bool_map str_value with
  | some b => Except.ok b
  | none => Except.error (PyErr.boolValueError value)

/-- `BooleanColumn.to_string`: `self._inverted_bool_map[value]`; a missing key
raises `KeyError`. -/
def BooleanColumn.to_string (col : BooleanColumn) (value : Bool) : Except PyErr String :=
  match col.inverted_bool_map value with
  | some s => Except.ok s
  | none => Except.error PyErr.keyError

example : (mkBooleanColumn none none).to_python "true" = Except.ok true := by decide
example : (mkBooleanColumn none none).to_python "True" = Except.ok true := by decide
example : (mkBooleanColumn none none).to_python "yes"
    = Except.error (PyErr.boolValueError "yes") := by decide
example : (mkBooleanColumn none none).to_string false = Except.ok "false" := by decide
example : (mkBooleanColumn (some [("yes", true), ("no", false)]) none).to_string true
    = Except.ok "yes" := by decide

/-- A Python 2 string value: either a byte string (`str`) or a `unicode`
text. -/
inductive PyStrVal where
  | bytes (bs : List Nat)
  | text (s : String)
deriving DecidableEq, Repr

def utf8EncodeChar (c : Char) : List Nat :=
  let n := c.toNat
  if n < 0x80 then [n]
  else if n < 0x800 then [0xC0 + n / 0x40, 0x80 + n % 0x40]
  else if n < 0x10000 then
    [0xE0 + n / 0x1000, 0x80 + (n / 0x40) % 0x40, 0x80 + n % 0x40]
  else
    [0xF0 + n / 0x40000, 0x80 + (n / 0x1000) % 0x40, 0x80 + (n / 0x40) % 0x40, 0x80 + n % 0x40]

def utf8Encode (s : String) : List Nat := (s.data.map utf8EncodeChar).flatten

def isAsciiBytes (bs : List Nat) : Bool := bs.all (fun b => b < 128)

def asciiDecode (bs : List Nat) : String := ⟨bs.map (fun b => Char.ofNat b)⟩

/-- Python 2 `==` between `str` and `unicode` values: mixed comparisons decode
the byte string with the default ASCII codec; if that fails the values compare
unequal (CPython emits a `UnicodeWarning` and returns `False`). -/
def pyEq : PyStrVal → PyStrVal → Bool
  | PyStrVal.bytes a, PyStrVal.bytes b => a == b
  | PyStrVal.text a, PyStrVal.text b => a == b
  | PyStrVal.bytes a, PyStrVal.text b => isAsciiBytes a && asciiDecode a == b
  | PyStrVal.text b, PyStrVal.bytes a => isAsciiBytes a && asciiDecode a == b

/-- `UnicodeColumn.to_python` is the inherited `Column.to_python`: the
identity, with no decoding and no encoding parameter anywhere in the class. -/
def UnicodeColumn.to_python (value : PyStrVal) : PyStrVal := value

/-- `UnicodeColumn.to_string(self, value)`: `value.encode('utf-8')`.  On a
Python 2 `str` input, `encode` first decodes with the default ASCII codec, so
non-ASCII byte strings raise `UnicodeDecodeError`. -/
def UnicodeColumn.to_string (value : PyStrVal) : Except PyErr PyStrVal :=
  match value with
  | PyStrVal.text s => Except.ok (PyStrVal.bytes (utf8Encode s))
  | PyStrVal.bytes bs =>
    if isAsciiBytes bs then Except.ok (PyStrVal.bytes bs)
    else Except.error PyErr.unicodeDecodeError

/-- The text value u"Spin̈al Tap" used by the repository's own
`UnicodeColumnTests`. -/
def spinalTap : String := "Spin" ++ String.singleton (Char.ofNat 0x308) ++ "al Tap"

/-- Its UTF-8 encoding, the byte string "Spin\xcc\x88al Tap" of the tests. -/
def spinalTapUtf8 : List Nat :=
  [0x53, 0x70, 0x69, 0x6E, 0xCC, 0x88, 0x61, 0x6C, 0x20, 0x54, 0x61, 0x70]

/-- Its UTF-16 encoding (with BOM), the byte string of
`UnicodeColumnTests_UTF16`. -/
def spinalTapUtf16 : List Nat :=
  [0xFF, 0xFE, 0x53, 0x00, 0x70, 0x00, 0x69, 0x00, 0x6E, 0x00, 0x08, 0x03,
   0x61, 0x00, 0x6C, 0x00, 0x20, 0x00, 0x54, 0x00, 0x61, 0x00, 0x70, 0x00]

example : utf8Encode spinalTap = spinalTapUtf8 := by decide

theorem runValidators_append_ok {α : Type} (pre rest : List (α → Except PyErr α)) (value : α)
    (h : ∀ g ∈ pre, ∃ r, g value = Except.ok r) :
    runValidators (pre ++ rest) value = runValidators rest value := by
  induction pre with
  | nil => rfl
  | cons f pre ih =>
    obtain ⟨r, hr⟩ := h f (by simp)
    simp only [List.cons_append, runValidators, hr]
    exact ih (fun g hg => h g (by simp [hg]))

theorem runValidators_ok_iff {α : Type} (vs : List (α → Except PyErr α)) (value : α) :
    runValidators vs value = Except.ok () ↔ ∀ g ∈ vs, ∃ r, g value = Except.ok r := by
  induction vs with
  | nil => simp [runValidators]
  | cons f rest ih =>
    cases hf : f value with
    | error e => simp [runValidators, hf]
    | ok r =>
      simp only [runValidators, hf, ih, List.mem_cons]
      constructor
      · intro h g hg
        rcases hg with hg | hg
        · exact hg ▸ ⟨r, hf⟩
        · exact h g hg
      · intro h g hg
        exact h g (Or.inr hg)

/-- C4: `validate` raises the error of the first validator in the chain that
rejects the value; validators after the first failing one never influence the
result (they are not invoked and nothing is aggregated), and if every
validator accepts, `validate` returns normally. -/
theorem C4_first_failure {α : Type} (col : ColumnState α)
    (pre post : List (α → Except PyErr α)) (f : α → Except PyErr α)
    (value : α) (e : PyErr)
    (hchain : col.validators = pre ++ f :: post)
    (hpre : ∀ g ∈ pre, ∃ r, g value = Except.ok r)
    (hf : f value = Except.error e) :
    Column.validate col value = Except.error e
    ∧ ∀ col2 : ColumnState α, (∀ g ∈ col2.validators, ∃ r, g value = Except.ok r) →
        Column.validate col2 value = Except.ok () := by
  constructor
  · unfold Column.validate
    rw [hchain, runValidators_append_ok pre _ value hpre]
    simp [runValidators, hf]
  · intro col2 h2
    exact (runValidators_ok_iff _ _).mpr h2

def c4Col : ColumnState Nat :=
  { title := none, required := true,
    validators := [fun v => Except.ok v] ++
      (fun _ => Except.error (PyErr.valueError "bad")) ::
      [fun _ => Except.error (PyErr.valueError "later")],
    counter := 0, name := none }

theorem C4_witness :
    Column.validate c4Col 7 = Except.error (PyErr.valueError "bad")
    ∧ ∀ col2 : ColumnState Nat, (∀ g ∈ col2.validators, ∃ r, g 7 = Except.ok r) →
        Column.validate col2 7 = Except.ok () :=
  C4_first_failure c4Col [fun v => Except.ok v]
    [fun _ => Except.error (PyErr.valueError "later")]
    (fun _ => Except.error (PyErr.valueError "bad")) 7 (PyErr.valueError "bad")
    rfl (by intro g hg; simp at hg; subst hg; exact ⟨7, rfl⟩) rfl

/-- C9: `validate` hands every validator the very argument it was given and
throws every return value away: success of the chain is exactly each validator
returning normally on the original `value` (so custom validators see the raw
argument, not the output of the leading `to_python` entry), and composing any
transformation onto a validator's return value never changes what `validate`
does. -/
theorem C9_original_argument {α : Type} (col : ColumnState α) (value : α) :
    (Column.validate col value = Except.ok ()
      ↔ ∀ g ∈ col.validators, ∃ r, g value = Except.ok r)
    ∧ ∀ (f : α → Except PyErr α) (g : α → α) (rest : List (α → Except PyErr α)),
        runValidators ((fun x => (f x).map g) :: rest) value
          = runValidators (f :: rest) value := by
  constructor
  · exact runValidators_ok_iff _ _
  · intro f g rest
    simp only [runValidators]
    cases h : f value <;> simp [h, Except.map]

def c9Col : ColumnState Nat :=
  { title := none, required := true, validators := [fun v => Except.ok v],
    counter := 0, name := none }

theorem C9_witness :
    (Column.validate c9Col 3 = Except.ok ()
      ↔ ∀ g ∈ c9Col.validators, ∃ r, g 3 = Except.ok r)
    ∧ ∀ (f : Nat → Except PyErr Nat) (g : Nat → Nat) (rest : List (Nat → Except PyErr Nat)),
        runValidators ((fun x => (f x).map g) :: rest) 3
          = runValidators (f :: rest) 3 :=
  C9_original_argument c9Col 3

theorem registerAll_validators {α : Type}
    (funcs : List (ColumnState α → α → Except PyErr α)) (col : ColumnState α) :
    (registerAll col funcs).validators = col.validators ++ boundChain col funcs := by
  induction funcs generalizing col with
  | nil => simp [registerAll, boundChain]
  | cons f fs ih =>
    simp only [registerAll, boundChain]
    rw [ih]
    simp [Column.validator, List.append_assoc]

/-- C5: for any column just constructed, the validator chain starts with the
column's own `to_python`, registered at construction; each `validator`
registration appends the supplied check (partially applied to the column) to
the end of the chain in registration order, and `validator` returns the
supplied function unchanged, decorator-style. -/
theorem C5_validator_chain {α : Type} (tp : α → Except PyErr α) (title : Option String)
    (required : Bool) (c : Nat)
    (funcs : List (ColumnState α → α → Except PyErr α)) :
    (registerAll (Column.init tp title required c).1 funcs).validators
        = tp :: boundChain (Column.init tp title required c).1 funcs
    ∧ (registerAll (Column.init tp title required c).1 funcs).validators.head? = some tp
    ∧ ∀ (col : ColumnState α) (f : ColumnState α → α → Except PyErr α),
        (Column.validator col f).1 = f := by
  have h := registerAll_validators funcs (Column.init tp title required c).1
  refine ⟨?_, ?_, fun col f => rfl⟩
  · rw [h]; rfl
  · rw [h]; rfl

/-- C6: after attachment the title is the caller-supplied string when one was
given (an explicit empty string included), and only a `None` title is replaced
by the default derived from the field name with underscores turned into
spaces. -/
theorem C6_title_attachment {α : Type} (col : ColumnState α) (name : String) :
    (col.title = none →
      (Column.attach_to_class col name).title = some (pyReplaceChar name '_' ' '))
    ∧ ∀ t : String, col.title = some t → (Column.attach_to_class col name).title = some t := by
  constructor
  · intro h; simp [Column.attach_to_class, h]
  · intro t h; simp [Column.attach_to_class, h]

def c6ColNoTitle : ColumnState Nat :=
  { title := none, required := true, validators := [fun v => Except.ok v],
    counter := 0, name := none }

def c6ColEmptyTitle : ColumnState Nat :=
  { title := some "", required := true, validators := [fun v => Except.ok v],
    counter := 1, name := none }

theorem C6_witness :
    (Column.attach_to_class c6ColNoTitle "first_name").title = some "first name"
    ∧ (Column.attach_to_class c6ColEmptyTitle "first_name").title = some "" := by
  constructor
  · have h := (C6_title_attachment c6ColNoTitle "first_name").1 rfl
    rw [h]
    decide
  · exact (C6_title_attachment c6ColEmptyTitle "first_name").2 "" rfl

theorem initSeq_counters {α : Type}
    (specs : List ((α → Except PyErr α) × Option String × Bool)) (c : Nat) :
    (initSeq specs c).1.map (fun col => col.counter) = List.range' c specs.length
    ∧ (initSeq specs c).2 = c + specs.length := by
  induction specs generalizing c with
  | nil => simp [initSeq]
  | cons s rest ih =>
    obtain ⟨tp, t, r⟩ := s
    obtain ⟨h1, h2⟩ := ih (c + 1)
    simp only [initSeq, Column.init, List.map_cons, List.length_cons, h1, h2,
      List.range'_succ]
    exact ⟨trivial, by omega⟩

/-- C8: constructing any sequence of columns (the shared base `__init__` runs
for every variant) assigns `counter` values that are exactly the consecutive
range starting at the current counter state: strictly increasing, gapless
within the run, and never reused, since every value of the run is below the
state left for all later constructions. -/
theorem C8_order_index {α : Type}
    (specs : List ((α → Except PyErr α) × Option String × Bool)) (c : Nat) :
    (initSeq specs c).1.map (fun col => col.counter) = List.range' c specs.length
    ∧ ((initSeq specs c).1.map (fun col => col.counter)).Pairwise (· < ·)
    ∧ (∀ x ∈ (initSeq specs c).1.map (fun col => col.counter),
        c ≤ x ∧ x < (initSeq specs c).2)
    ∧ (initSeq specs c).2 = c + specs.length := by
  obtain ⟨h1, h2⟩ := initSeq_counters specs c
  refine ⟨h1, ?_, ?_, h2⟩
  · rw [h1]; exact List.pairwise_lt_range' c specs.length
  · intro x hx
    rw [h1] at hx
    rw [h2]
    exact List.mem_range'_1.mp hx

theorem strLoop_found (col : DateTimeColumn) (s : String) (l : List String) (f : String)
    (h : l.find? (fun g => (strptime s g).isSome) = some f) :
    ∃ dt, strptime s f = some dt
      ∧ strLoop col s l = Except.ok (localizeOpt col.timezone dt) := by
  induction l with
  | nil => simp at h
  | cons a rest ih =>
    cases ha : strptime s a with
    | some dt =>
      rw [List.find?_cons_of_pos _ (by simp [ha])] at h
      cases h
      exact ⟨dt, ha, by simp [strLoop, ha]⟩
    | none =>
      rw [List.find?_cons_of_neg _ (by simp [ha])] at h
      obtain ⟨dt, hdt, hloop⟩ := ih h
      exact ⟨dt, hdt, by simp [strLoop, ha, hloop]⟩

theorem strLoop_none (col : DateTimeColumn) (s : String) (l : List String)
    (h : l.find? (fun g => (strptime s g).isSome) = none) :
    strLoop col s l = Except.error (PyErr.valueError (noMatchMsg s col.input_formats)) := by
  induction l with
  | nil => rfl
  | cons a rest ih =>
    rw [List.find?_cons] at h
    cases ha : strptime s a with
    | some dt => simp [ha] at h
    | none =>
      simp only [ha, Option.isSome_none] at h
      simp [strLoop, ha, ih h]

/-- C2 (amended): parsing a raw string attempts the formats of the configured
set (primary and alternates together) in an implementation-defined
enumeration order, with no guarantee that the primary format is attempted
first; the first format in that order that matches wins, and if no format
matches, parsing fails with a `ValueError` whose message enumerates all
attempted formats, which are exactly the primary format and the alternates. -/
theorem C2_format_fallback (format : String) (format_list enum : List String)
    (tz : Option Nat) (s : String) (f : String)
    (h : validEnum format format_list enum) :
    (enum.find? (fun g => (strptime s g).isSome) = some f →
      ∃ dt, strptime s f = some dt
        ∧ DateTimeColumn.to_python ⟨format, enum, tz⟩ (DTInput.str s)
            = Except.ok (localizeOpt tz dt))
    ∧ (enum.find? (fun g => (strptime s g).isSome) = none →
      DateTimeColumn.to_python ⟨format, enum, tz⟩ (DTInput.str s)
          = Except.error (PyErr.valueError (noMatchMsg s enum))
        ∧ ∀ g, g ∈ enum ↔ (g = format ∨ g ∈ format_list)) := by
  constructor
  · intro hf
    exact strLoop_found ⟨format, enum, tz⟩ s enum f hf
  · intro hn
    refine ⟨strLoop_none ⟨format, enum, tz⟩ s enum hn, ?_⟩
    intro g
    rw [h.mem_iff, List.mem_dedup, List.mem_cons]

theorem C2_format_fallback_witness :
    ∃ dt, strptime "2010-03-31" "%Y-%m-%d" = some dt
      ∧ DateTimeColumn.to_python ⟨"%Y-%m-%d", ["%Y-%m-%d"], none⟩ (DTInput.str "2010-03-31")
          = Except.ok (localizeOpt none dt) :=
  (C2_format_fallback "%Y-%m-%d" [] ["%Y-%m-%d"] none "2010-03-31" "%Y-%m-%d"
    (by decide)).1 (by decide)

/-- The column `DateTimeColumn(format="%d/%m/%Y", format_list=["%m/%d/%Y"])`
as it stands in a run of the interpreter in which the unordered set
`self.input_formats` happens to enumerate the alternate format before the
primary one. -/
def c2Col : DateTimeColumn :=
  { format := "%d/%m/%Y", input_formats := ["%m/%d/%Y", "%d/%m/%Y"], timezone := none }

/-- C2 (counterexample): in a legitimate enumeration of
`set([format] + format_list)` the alternate format can come first, and then a
string matched by both formats parses by the alternate, not by the primary as
the claim states: "03/04/2010" yields March 4 even though the configured
primary format "%d/%m/%Y" matches it as April 3. -/
theorem C2_counterexample :
    validEnum "%d/%m/%Y" ["%m/%d/%Y"] c2Col.input_formats
    ∧ strptime "03/04/2010" c2Col.format = some ⟨2010, 4, 3, 0, 0, 0, none⟩
    ∧ DateTimeColumn.to_python c2Col (DTInput.str "03/04/2010")
        = Except.ok ⟨2010, 3, 4, 0, 0, 0, none⟩
    ∧ (⟨2010, 3, 4, 0, 0, 0, none⟩ : DateTime) ≠ ⟨2010, 4, 3, 0, 0, 0, none⟩ :=
  ⟨by decide, by decide, by decide, by decide⟩

/-- C10: `DateTimeColumn.to_python` returns a datetime argument unchanged
(its timezone field included) and turns a date argument into the naive
datetime at midnight of that date, in both cases without applying the
configured timezone; localization is applied exactly on the branch that
parses a string. -/
theorem C10_passthrough (col : DateTimeColumn) (d : DateTime) (dd : Date) :
    DateTimeColumn.to_python col (DTInput.dt d) = Except.ok d
    ∧ DateTimeColumn.to_python col (DTInput.date dd)
        = Except.ok { year := dd.year, month := dd.month, day := dd.day,
                      hour := 0, minute := 0, second := 0, tz := none }
    ∧ ∀ (s : String) (r : DateTime) (z : Nat), col.timezone = some z →
        DateTimeColumn.to_python col (DTInput.str s) = Except.ok r → r.tz = some z := by
  refine ⟨rfl, rfl, ?_⟩
  intro s r z hz hr
  cases hfind : col.input_formats.find? (fun g => (strptime s g).isSome) with
  | some f =>
    obtain ⟨dt, hdt, hloop⟩ := strLoop_found col s col.input_formats f hfind
    have h3 : DateTimeColumn.to_python col (DTInput.str s)
        = Except.ok (localizeOpt col.timezone dt) := hloop
    rw [hr] at h3
    injection h3 with h4
    subst h4
    simp [localizeOpt, hz]
  | none =>
    have h3 : DateTimeColumn.to_python col (DTInput.str s)
        = Except.error (PyErr.valueError (noMatchMsg s col.input_formats)) :=
      strLoop_none col s col.input_formats hfind
    rw [hr] at h3
    simp at h3

def c10Col : DateTimeColumn :=
  { format := "%Y-%m-%d", input_formats := ["%Y-%m-%d"], timezone := some 3 }

theorem C10_witness :
    DateTimeColumn.to_python c10Col (DTInput.dt ⟨2010, 3, 31, 11, 43, 12, some 9⟩)
        = Except.ok ⟨2010, 3, 31, 11, 43, 12, some 9⟩
    ∧ DateTimeColumn.to_python c10Col (DTInput.date ⟨2011, 5, 6⟩)
        = Except.ok { year := 2011, month := 5, day := 6,
                      hour := 0, minute := 0, second := 0, tz := none }
    ∧ (⟨2010, 3, 31, 0, 0, 0, some 3⟩ : DateTime).tz = some 3 := by
  have h := C10_passthrough c10Col ⟨2010, 3, 31, 11, 43, 12, some 9⟩ ⟨2011, 5, 6⟩
  exact ⟨h.1, h.2.1, h.2.2 "2010-03-31" ⟨2010, 3, 31, 0, 0, 0, some 3⟩ 3 rfl (by decide)⟩

/-- C7: for a `BooleanColumn` built with a custom `bool_map` and no explicit
inverted map, `to_string` sends each mapped bool back to its key in the custom
map (the inverse map is derived from the map itself, whatever its dict
enumeration order, provided distinct keys do not share a bool value); and
`to_python` raises for every raw token whose lower-cased form is not a key of
the configured map, in particular raw "yes" under the default map. -/
theorem C7_bool_mapping (m : List (String × Bool)) (k : String) (b : Bool)
    (hinj : ∀ p ∈ m, ∀ q ∈ m, p.2 = q.2 → p.1 = q.1)
    (hmem : (k, b) ∈ m) :
    (mkBooleanColumn (some m) none).to_string b = Except.ok k
    ∧ (∀ raw : String, lookupKey m (pyStrLower raw) = none →
        (mkBooleanColumn (some m) none).to_python raw
          = Except.error (PyErr.boolValueError raw))
    ∧ (mkBooleanColumn none none).to_python "yes"
        = Except.error (PyErr.boolValueError "yes") := by
  refine ⟨?_, ?_, by decide⟩
  · have hs : (m.reverse.find? (fun p => p.2 == b)).isSome := by
      rw [List.find?_isSome]
      exact ⟨(k, b), List.mem_reverse.mpr hmem, by simp⟩
    obtain ⟨q, hq⟩ := Option.isSome_iff_exists.mp hs
    have hqmem : q ∈ m := List.mem_reverse.mp (List.mem_of_find?_eq_some hq)
    have hqval : q.2 = b := by simpa using List.find?_some hq
    have hkey : q.1 = k := hinj q hqmem (k, b) hmem (by simpa using hqval)
    have hlook : invertBoolMap m b = some k := by
      unfold invertBoolMap
      rw [hq]
      simp [hkey]
    simp [BooleanColumn.to_string, mkBooleanColumn, hlook]
  · intro raw hraw
    simp [BooleanColumn.to_python, mkBooleanColumn, hraw]

theorem C7_witness :
    (mkBooleanColumn (some [("yes", true), ("no", false)]) none).to_string true
        = Except.ok "yes"
    ∧ (mkBooleanColumn (some [("yes", true), ("no", false)]) none).to_string false
        = Except.ok "no"
    ∧ (mkBooleanColumn (some [("yes", true), ("no", false)]) none).to_python "TRUE"
        = Except.error (PyErr.boolValueError "TRUE")
    ∧ (mkBooleanColumn none none).to_python "yes"
        = Except.error (PyErr.boolValueError "yes") := by
  have h := C7_bool_mapping [("yes", true), ("no", false)] "yes" true (by decide) (by decide)
  have h2 := C7_bool_mapping [("yes", true), ("no", false)] "no" false (by decide) (by decide)
  exact ⟨h.1, h2.1, h.2.1 "TRUE" (by decide), h.2.2⟩

/-- C1: the round-trip `to_python(to_string(v)) == v` fails on the source's
`UnicodeColumn` at the repository's own test value u"Spin̈al Tap":
`to_string` encodes the text to the UTF-8 byte string, the inherited identity
`to_python` returns that byte string undecoded, and Python 2 compares the
non-ASCII byte string unequal to the original text.  (The other variants the
claim covers do round-trip; the repository's `UnicodeColumnTests` expect a
decoding `to_python`, which the source does not implement.) -/
theorem C1_unicode_roundtrip_fails :
    UnicodeColumn.to_string (PyStrVal.text spinalTap)
        = Except.ok (PyStrVal.bytes spinalTapUtf8)
    ∧ UnicodeColumn.to_python (PyStrVal.bytes spinalTapUtf8) = PyStrVal.bytes spinalTapUtf8
    ∧ pyEq (PyStrVal.bytes spinalTapUtf8) (PyStrVal.text spinalTap) = false :=
  ⟨by decide, rfl, by decide⟩

/-- C3: the source's `UnicodeColumn` does no decoding at all: `to_python` is
the inherited identity, so the UTF-16 byte string that the repository's
`UnicodeColumnTests_UTF16` feeds it comes back unchanged instead of decoding
to the text u"Spin̈al Tap" (and the class accepts no `encoding` argument at
construction: `Column.__init__` takes only `title` and `required`). -/
theorem C3_no_encoding_support :
    UnicodeColumn.to_python (PyStrVal.bytes spinalTapUtf16) = PyStrVal.bytes spinalTapUtf16
    ∧ pyEq (PyStrVal.bytes spinalTapUtf16) (PyStrVal.text spinalTap) = false :=
  ⟨rfl, by decide⟩
